import Mathlib

/-!
Verification of the stroke-capture and shape-recognition engine of the
ObsidianNotability plugin (class `DrawingTools` in `tools.ts`).

Embedding conventions:
* JavaScript numbers are modelled as real numbers (`ℝ`); `Math.sqrt` is
  `Real.sqrt` and `Math.atan2 y x` is `Complex.arg (x + y*I)`, which has the
  same value range `(-π, π]` and agrees with `atan2` on every input with
  `(x, y) ≠ (0, 0)` as well as at the origin (both give `0`).  The one
  component whose behaviour depends on rounding — the lasso selection's
  opacity dim/restore, which recomputes `(opacity * 0.8) / 0.8` with no
  stored original — is instead modelled exactly: opacities are binary64
  values, i.e. the dyadic rationals they denote, and every multiplication
  and division is followed by the IEEE 754 rounding `fl53`.
* A stroke's point list is kept flattened as alternating x,y values, exactly
  as in the source (`number[]`).
* Konva node references mutated in place are modelled by explicit state
  passing: the live stroke's points live in `currentLine`, the live shape in
  `currentShape`; committed content sits in `layer`.  In Konva the live nodes
  already sit on the layer and merely have their references dropped at
  finalization, so the model appends them to `layer` at the single
  finalization point (pointer-up) to keep the rendered scene identical.
-/

/-- A 2-D point, as the `{x, y}` position objects of the source. -/
structure Pt where
  x : ℝ
  y : ℝ

/-- The shape kinds returned by `analyzeStrokeForShape`. -/
inductive ShapeType where
  | circle
  | oval
  | rectangle
  | triangle
  | line
deriving DecidableEq

/-- The drawing tools relevant to the pen/highlighter gesture state machine.
The eraser, text and select tools run through disjoint code paths embedded
separately below (hit tester, selection opacity handling). -/
inductive Tool where
  | pen
  | highlighter
  | hand
deriving DecidableEq

/-- Geometry of a Konva node created by shape detection: `Konva.Circle`,
`Konva.Ellipse`, `Konva.Rect`, and `Konva.Line` (used for both the triangle
polygon and the two-endpoint line, distinguished by `closed`). -/
inductive ShapeGeom where
  | circleG (x y radius : ℝ)
  | ovalG (x y radiusX radiusY : ℝ)
  | rectG (x y width height : ℝ)
  | polyG (points : List ℝ) (closed : Bool)

/-- Entries of a flattened point list at even positions (the x coordinates),
mirroring the `for (i = 0; i < points.length; i += 2) xs.push(points[i])`
loops of the source. -/
def evens : List ℝ → List ℝ
  | [] => []
  | [x] => [x]
  | x :: _ :: rest => x :: evens rest

/-- Entries of a flattened point list at odd positions (the y coordinates). -/
def odds : List ℝ → List ℝ
  | [] => []
  | _ :: rest => evens rest

/-- Minimum of a list, as `Math.min(...xs)` applied to a nonempty list (every
call site guards nonemptiness; the empty case is unreachable). -/
def minL : List ℝ → ℝ
  | [] => 0
  | x :: xs => xs.foldl min x

/-- Maximum of a list, as `Math.max(...xs)` applied to a nonempty list. -/
def maxL : List ℝ → ℝ
  | [] => 0
  | x :: xs => xs.foldl max x

/-- JavaScript `Math.atan2 y x`, with its range `(-π, π]`. -/
noncomputable def atan2 (y x : ℝ) : ℝ :=
  Complex.arg (x + y * Complex.I)

/-- Method `getAngle(p1, p2, p3)`: absolute difference of the two bearings
from `p2`, converted to degrees. -/
noncomputable def getAngle (p1 p2 p3 : Pt) : ℝ :=
  let a := atan2 (p1.y - p2.y) (p1.x - p2.x)
  let b := atan2 (p3.y - p2.y) (p3.x - p2.x)
  |a - b| * (180 / Real.pi)

/-- Method `pointToSegmentDistance(px, py, x1, y1, x2, y2)`. -/
noncomputable def pointToSegmentDistance (px py x1 y1 x2 y2 : ℝ) : ℝ :=
  let dx := x2 - x1
  let dy := y2 - y1
  let lengthSquared := dx * dx + dy * dy
  if lengthSquared = 0 then
    Real.sqrt ((px - x1) * (px - x1) + (py - y1) * (py - y1))
  else
    let t := max 0 (min 1 (((px - x1) * dx + (py - y1) * dy) / lengthSquared))
    let nearestX := x1 + t * dx
    let nearestY := y1 + t * dy
    Real.sqrt ((px - nearestX) * (px - nearestX) + (py - nearestY) * (py - nearestY))

/-- Start indices of the segments scanned by `lineIntersectsEraser`:
`for (let i = 0; i < points.length - 2; i += 2)`. -/
def segStarts (n : ℕ) : List ℕ :=
  (List.range n).filter (fun i => i % 2 = 0 && i + 2 < n)

/-- Method `lineIntersectsEraser(line, eraserPos, radius)`: true when some
segment of the polyline is within `radius + strokeWidth/2` of the eraser
center (boundary-inclusive `<=`). -/
noncomputable def lineIntersectsEraser (points : List ℝ) (ex ey radius strokeWidth : ℝ) : Bool :=
  (segStarts points.length).any (fun i =>
    decide (pointToSegmentDistance ex ey (points.getD i 0) (points.getD (i + 1) 0)
      (points.getD (i + 2) 0) (points.getD (i + 3) 0) ≤ radius + strokeWidth / 2))

/-- Insertion step of a stable ascending sort on the candidate angle,
modelling `candidates.sort((a, b) => a.angle - b.angle)` (JavaScript's
`Array.prototype.sort` is stable). -/
noncomputable def insertCand (c : Pt × ℝ) : List (Pt × ℝ) → List (Pt × ℝ)
  | [] => [c]
  | d :: ds => if c.2 ≤ d.2 then c :: d :: ds else d :: insertCand c ds

/-- Stable sort of corner candidates by ascending angle (sharpest first). -/
noncomputable def sortByAngle (l : List (Pt × ℝ)) : List (Pt × ℝ) :=
  l.foldr insertCand []

/-- Method `findSignificantCorners(points, width, height)`.  Note the guard is
on the FLATTENED list length (`points.length < 12`, i.e. fewer than 6 actual
points).  `Math.max(0, i - step * 2)` is truncated subtraction on ℕ. -/
noncomputable def findSignificantCorners (points : List ℝ) (width height : ℝ) : List Pt :=
  if points.length < 12 then []
  else
    let angleThreshold : ℝ := 25
    let minDistance := min width height * 0.15
    let step := max 4 (points.length / 40)
    let idxs := (List.range points.length).filter
      (fun i => step * 2 ≤ i && i % 2 = 0 && i + step * 2 + 1 < points.length)
    let candidates := idxs.filterMap (fun i =>
      let prevIdx := i - step * 2
      let nextIdx := min (points.length - 2) (i + step * 2)
      let prev : Pt := ⟨points.getD prevIdx 0, points.getD (prevIdx + 1) 0⟩
      let curr : Pt := ⟨points.getD i 0, points.getD (i + 1) 0⟩
      let next : Pt := ⟨points.getD nextIdx 0, points.getD (nextIdx + 1) 0⟩
      let angle := getAngle prev curr next
      if angle < 180 - angleThreshold ∧ angle > 15 then some (curr, angle) else none)
    let sorted := sortByAngle candidates
    sorted.foldl (fun corners c =>
      if corners.any (fun q => decide (Real.sqrt ((c.1.x - q.x) * (c.1.x - q.x) +
          (c.1.y - q.y) * (c.1.y - q.y)) < minDistance))
      then corners else corners ++ [c.1]) []

/-- Method `analyzeStrokeForShape(points)`.  The `corners.length === 2`
closure fallback and the final circle/oval aspect-ratio classification are
arranged exactly as the source's control flow: lengths 3 and `>= 4` return
triangle/rectangle, a closed 2-corner stroke returns triangle, and every
remaining case falls through to the aspect-ratio test. -/
noncomputable def analyzeStrokeForShape (points : List ℝ) : Option ShapeType :=
  if points.length < 4 then none
  else
    let xs := evens points
    let ys := odds points
    let minX := minL xs
    let maxX := maxL xs
    let minY := minL ys
    let maxY := maxL ys
    let width := maxX - minX
    let height := maxY - minY
    if width > height * 3.5 ∨ height > width * 3.5 then some ShapeType.line
    else
      let corners := findSignificantCorners points width height
      if corners.length = 3 then some ShapeType.triangle
      else if corners.length ≥ 4 then some ShapeType.rectangle
      else
        let aspectRatio := max width height / min width height
        let roundKind := if aspectRatio < 1.3 then some ShapeType.circle else some ShapeType.oval
        if corners.length = 2 then
          let startX := xs.headD 0
          let startY := ys.headD 0
          let endX := xs.getLastD 0
          let endY := ys.getLastD 0
          let closedThreshold := max width height * 0.25
          if Real.sqrt ((endX - startX) ^ 2 + (endY - startY) ^ 2) < closedThreshold then
            some ShapeType.triangle
          else roundKind
        else roundKind

/-- Method `resizeShape(pos)`, as a function of the detected shape type, the
resize anchor, the pointer position, and the current shape node.  Only circle
radius and oval radii get the `Math.max(5, ...)` floor; rectangle, triangle
and line geometry are written without a floor, exactly as in the source.  The
catch-all branch (kind/node mismatch) is unreachable in the program. -/
noncomputable def resizeShapeGeom (ty : ShapeType) (anchor pos : Pt) (g : ShapeGeom) : ShapeGeom :=
  let dx := pos.x - anchor.x
  let dy := pos.y - anchor.y
  match ty, g with
  | ShapeType.circle, ShapeGeom.circleG x y _ =>
      ShapeGeom.circleG x y (max 5 (Real.sqrt (dx * dx + dy * dy)))
  | ShapeType.oval, ShapeGeom.ovalG x y _ _ =>
      ShapeGeom.ovalG x y (max 5 |dx|) (max 5 |dy|)
  | ShapeType.rectangle, ShapeGeom.rectG _ _ _ _ =>
      let newX := if dx < 0 then pos.x else anchor.x - |dx|
      let newY := if dy < 0 then pos.y else anchor.y - |dy|
      ShapeGeom.rectG newX newY (|dx| * 2) (|dy| * 2)
  | ShapeType.triangle, ShapeGeom.polyG _ c =>
      let triWidth := |dx| * 2
      let triHeight := |dy| * 2
      let topY := anchor.y - triHeight / 2
      let bottomY := anchor.y + triHeight / 2
      let leftX := anchor.x - triWidth / 2
      let rightX := anchor.x + triWidth / 2
      ShapeGeom.polyG [anchor.x, topY, leftX, bottomY, rightX, bottomY, anchor.x, topY] c
  | ShapeType.line, ShapeGeom.polyG _ c =>
      ShapeGeom.polyG [anchor.x, anchor.y, pos.x, pos.y] c
  | _, _ => g

/-- Radius of a circle node (projection helper for stating theorems). -/
def circleRadius : ShapeGeom → ℝ
  | ShapeGeom.circleG _ _ r => r
  | _ => 0

/-- Horizontal radius of an ellipse node. -/
def ovalRadiusX : ShapeGeom → ℝ
  | ShapeGeom.ovalG _ _ rx _ => rx
  | _ => 0

/-- Vertical radius of an ellipse node. -/
def ovalRadiusY : ShapeGeom → ℝ
  | ShapeGeom.ovalG _ _ _ ry => ry
  | _ => 0

/-- Width of a rectangle node. -/
def rectWidth : ShapeGeom → ℝ
  | ShapeGeom.rectG _ _ w _ => w
  | _ => 0

/-- Round a rational to the nearest integer with ties to even (the IEEE 754
default rounding direction). -/
def rne (m : ℚ) : ℤ :=
  if m - (⌊m⌋ : ℚ) < 1 / 2 then ⌊m⌋
  else if m - (⌊m⌋ : ℚ) > 1 / 2 then ⌊m⌋ + 1
  else if ⌊m⌋ % 2 = 0 then ⌊m⌋ else ⌊m⌋ + 1

/-- The IEEE 754 binary64 rounding of a rational: scale the magnitude into
`[2^52, 2^53)`, round to the nearest integer significand with ties to even,
and scale back.  Overflow and subnormals cannot occur at the magnitudes of
the opacity computations and are not modelled. -/
def fl53 (q : ℚ) : ℚ :=
  if q = 0 then 0
  else if 0 < q then
    (rne (q * 2 ^ ((52 : ℤ) - Int.log 2 q)) : ℚ) * 2 ^ (Int.log 2 q - 52)
  else
    -((rne (-q * 2 ^ ((52 : ℤ) - Int.log 2 (-q))) : ℚ) * 2 ^ (Int.log 2 (-q) - 52))

/-- JavaScript double multiplication: the exact product, rounded to
binary64. -/
def jsMul (a b : ℚ) : ℚ := fl53 (a * b)

/-- JavaScript double division: the exact quotient, rounded to binary64. -/
def jsDiv (a b : ℚ) : ℚ := fl53 (a / b)

/-- The binary64 value denoted by the source literal `0.8`
(3602879701896397 / 2^52). -/
def lit08 : ℚ := fl53 (4 / 5)

/-- A Konva shape as seen by the lasso selection code: position plus the
`opacity` attribute that `finishSelection`/`clearSelection` manipulate.
All numbers are binary64 values represented by the dyadic rationals they
denote. -/
structure KShape where
  x : ℚ
  y : ℚ
  opacity : ℚ

/-- The highlight applied to each selected shape at the end of
`finishSelection`: `shape.opacity(shape.opacity() * 0.8)`, in double
arithmetic. -/
def highlightSelected (s : KShape) : KShape :=
  { s with opacity := jsMul s.opacity lit08 }

/-- The restore applied to each selected shape in `clearSelection`:
`shape.opacity(shape.opacity() / 0.8)`, in double arithmetic — the original
opacity is not stored anywhere on this path. -/
def restoreSelected (s : KShape) : KShape :=
  { s with opacity := jsDiv s.opacity lit08 }

/-- A node on the drawing layer, as far as the gesture state machine is
concerned: a raw ink stroke (tagged with the tool that drew it) or a
recognized shape.  Style attributes are omitted; the shape-detection path
always styles with the pen settings. -/
inductive SceneNode where
  | strokeNode (points : List ℝ) (tool : Tool)
  | shapeNode (g : ShapeGeom)

/-- The mutable fields of `DrawingTools` that the pen/highlighter gesture and
hold-to-snap logic read and write.  `shapeHoldTimer` is `true` while a
`setTimeout` handle is stored (the callback itself never nulls it, matching
the source).  `shapeBounds` is `(minX, minY, maxX, maxY)`. -/
structure DrawState where
  tool : Tool
  isDrawing : Bool
  currentLine : Option (List ℝ)
  currentShape : Option ShapeGeom
  isInShapeMode : Bool
  detectedShapeType : Option ShapeType
  shapeAnchor : Option Pt
  shapeBounds : Option (ℝ × ℝ × ℝ × ℝ)
  lastMovePos : Option Pt
  shapeHoldTimer : Bool
  layer : List SceneNode

/-- The state of `DrawingTools` after construction, with a given tool set. -/
def initState (t : Tool) : DrawState :=
  { tool := t, isDrawing := false, currentLine := none, currentShape := none,
    isInShapeMode := false, detectedShapeType := none, shapeAnchor := none,
    shapeBounds := none, lastMovePos := none, shapeHoldTimer := false, layer := [] }

/-- Method `startDrawing(pos)`: create the live stroke with the down position
as its single point (the new `Konva.Line` is added to the layer; the model
keeps live nodes in `currentLine` until finalization). -/
def startDrawing (pos : Pt) (s : DrawState) : DrawState :=
  { s with currentLine := some [pos.x, pos.y] }

/-- Method `continueDrawing(pos)`: append the sample to the live stroke. -/
def continueDrawing (pos : Pt) (s : DrawState) : DrawState :=
  match s.currentLine with
  | none => s
  | some pts => { s with currentLine := some (pts ++ [pos.x, pos.y]) }

/-- Method `checkForShapeHold(pos)`: cancel the hold timer on movement beyond
the 5px stillness threshold, record the sample, and arm the timer when no
handle is stored and a live stroke exists. -/
noncomputable def checkForShapeHold (pos : Pt) (s : DrawState) : DrawState :=
  let s1 :=
    match s.lastMovePos with
    | some lp =>
        let dx := pos.x - lp.x
        let dy := pos.y - lp.y
        if Real.sqrt (dx * dx + dy * dy) > 5 then { s with shapeHoldTimer := false } else s
    | none => s
  let s2 := { s1 with lastMovePos := some pos }
  if !s2.shapeHoldTimer && s2.currentLine.isSome then { s2 with shapeHoldTimer := true }
  else s2

/-- Last part of `triggerShapeDetection`: method `createDetectedShape()`.
`jsOr v fb` models the `value || fallback` reads in the `line` case (`0`,
like `undefined`, is falsy). -/
noncomputable def jsOr (v : Option ℝ) (fb : ℝ) : ℝ :=
  match v with
  | none => fb
  | some x => if x = 0 then fb else x

/-- Method `createDetectedShape()`: build the initial Konva node from the
detected type and bounds.  In the `line` case the source reads
`this.currentLine?.points() || []` — but `triggerShapeDetection` has already
set `currentLine` to null, so the reads fall back to the bounds corners. -/
noncomputable def createDetectedShape (s : DrawState) : DrawState :=
  match s.shapeBounds, s.detectedShapeType with
  | some (minX, minY, maxX, maxY), some ty =>
      let width := maxX - minX
      let height := maxY - minY
      let centerX := (minX + maxX) / 2
      let centerY := (minY + maxY) / 2
      match ty with
      | ShapeType.circle =>
          { s with
              currentShape := some (ShapeGeom.circleG centerX centerY (min width height / 2)) }
      | ShapeType.oval =>
          { s with
              currentShape := some (ShapeGeom.ovalG centerX centerY (width / 2) (height / 2)) }
      | ShapeType.rectangle =>
          { s with currentShape := some (ShapeGeom.rectG minX minY width height) }
      | ShapeType.triangle =>
          { s with
              currentShape :=
                some (ShapeGeom.polyG [centerX, minY, minX, maxY, maxX, maxY, centerX, minY] true) }
      | ShapeType.line =>
          let pts := s.currentLine.getD []
          let startX := jsOr (pts.get? 0) minX
          let startY := jsOr (pts.get? 1) minY
          let endX := jsOr (pts.get? (pts.length - 2)) maxX
          let endY := jsOr (pts.get? (pts.length - 1)) maxY
          { s with
              currentShape := some (ShapeGeom.polyG [startX, startY, endX, endY] false),
              shapeAnchor := some ⟨startX, startY⟩ }
  | _, _ => s

/-- Method `triggerShapeDetection()` (the hold-timer callback body): guarded
by a live stroke and not already being in shape mode; classifies the stroke,
computes bounds and the center anchor, destroys the raw stroke, and creates
the detected shape. -/
noncomputable def triggerShapeDetection (s : DrawState) : DrawState :=
  if s.currentLine.isNone || s.isInShapeMode then s
  else
    let points := s.currentLine.getD []
    if points.length < 6 then s
    else
      match analyzeStrokeForShape points with
      | none => s
      | some shapeType =>
          let xs := evens points
          let ys := odds points
          let minX := minL xs
          let minY := minL ys
          let maxX := maxL xs
          let maxY := maxL ys
          let s1 := { s with
            detectedShapeType := some shapeType,
            isInShapeMode := true,
            shapeBounds := some (minX, minY, maxX, maxY),
            shapeAnchor := some ⟨(minX + maxX) / 2, (minY + maxY) / 2⟩,
            currentLine := none }
          createDetectedShape s1

/-- Firing of the armed `setTimeout`: the callback runs only if the handle
was not cleared beforehand. -/
noncomputable def timerFire (s : DrawState) : DrawState :=
  if s.shapeHoldTimer then triggerShapeDetection s else s

/-- Method `resizeShape(pos)` acting on the state: dispatch to the geometry
update when a live shape and anchor exist. -/
noncomputable def resizeShapeState (pos : Pt) (s : DrawState) : DrawState :=
  match s.currentShape, s.shapeAnchor, s.detectedShapeType with
  | some g, some anchor, some ty =>
      { s with currentShape := some (resizeShapeGeom ty anchor pos g) }
  | _, _, _ => s

/-- Method `handlePointerDown(e, stage)` for the drawing tools: ignores the
hand tool, sets `isDrawing`, and silently no-ops when the pointer position is
unavailable (`isDrawing` stays set, as in the source). -/
def handlePointerDown (pos : Option Pt) (s : DrawState) : DrawState :=
  if s.tool = Tool.hand then s
  else
    let s1 := { s with isDrawing := true }
    match pos with
    | none => s1
    | some p =>
        match s1.tool with
        | Tool.pen => startDrawing p s1
        | Tool.highlighter => startDrawing p s1
        | Tool.hand => s1

/-- Method `handlePointerMove(e, stage)` for pen/highlighter: in shape mode
the move resizes the live shape; otherwise it extends the stroke and runs the
hold-stillness tracking.  Both the pen and the highlighter case fall through
to the same branch, exactly as in the source `switch`. -/
noncomputable def handlePointerMove (pos : Option Pt) (s : DrawState) : DrawState :=
  if !s.isDrawing || s.tool = Tool.hand then s
  else
    match pos with
    | none => s
    | some p =>
        match s.tool with
        | Tool.pen =>
            if s.isInShapeMode then resizeShapeState p s
            else checkForShapeHold p (continueDrawing p s)
        | Tool.highlighter =>
            if s.isInShapeMode then resizeShapeState p s
            else checkForShapeHold p (continueDrawing p s)
        | Tool.hand => s

/-- Finalization of the live artifacts at pointer-up: in Konva the live
stroke/shape already sit on the layer and only the references are nulled;
the model commits them to `layer` at this single point. -/
def commitLive (s : DrawState) : DrawState :=
  let l1 :=
    match s.currentLine with
    | some pts => s.layer ++ [SceneNode.strokeNode pts s.tool]
    | none => s.layer
  let l2 :=
    match s.currentShape with
    | some g => l1 ++ [SceneNode.shapeNode g]
    | none => l1
  { s with layer := l2 }

/-- Method `handlePointerUp(e, stage)` for pen/highlighter.  Note the order
from the source: `isDrawing` is reset first, then the position is read, and
an unavailable position returns BEFORE the hold timer is cleared and before
any of the transient fields are nulled. -/
def handlePointerUp (pos : Option Pt) (s : DrawState) : DrawState :=
  if !s.isDrawing || s.tool = Tool.hand then s
  else
    let s1 := { s with isDrawing := false }
    match pos with
    | none => s1
    | some _ =>
        let s2 := { s1 with shapeHoldTimer := false }
        let s3 := commitLive s2
        { s3 with currentLine := none, currentShape := none, isInShapeMode := false,
                  detectedShapeType := none, shapeAnchor := none, shapeBounds := none,
                  lastMovePos := none }

/-- Helper: the flattened-length guard of the corner detector. -/
theorem fsc_empty_of_short (points : List ℝ) (width height : ℝ)
    (h : points.length < 12) :
    findSignificantCorners points width height = [] := by
  rw [findSignificantCorners]
  simp [h]

/-- Helper: the aspect-ratio branch of the classifier fires on a STRICT
ratio, pre-empting the corner analysis. -/
theorem analyze_line_aux (points : List ℝ) (hlen : 4 ≤ points.length)
    (h : maxL (evens points) - minL (evens points) >
          (maxL (odds points) - minL (odds points)) * 3.5 ∨
         maxL (odds points) - minL (odds points) >
          (maxL (evens points) - minL (evens points)) * 3.5) :
    analyzeStrokeForShape points = some ShapeType.line := by
  rw [analyzeStrokeForShape]
  rw [if_neg (by omega)]
  simp only []
  rw [if_pos h]

/-- Claim C10: if the hold timer fires while no live stroke exists or while
shape mode is already active, `triggerShapeDetection` returns with the whole
drawing state unchanged, so a stale firing can never create a second shape or
corrupt state. -/
theorem trigger_noop_on_guard (s : DrawState)
    (h : s.currentLine = none ∨ s.isInShapeMode = true) :
    triggerShapeDetection s = s := by
  rw [triggerShapeDetection]
  rcases h with h | h <;> simp [h]

/-- Witness for C10 at a concrete state with no live stroke. -/
theorem trigger_noop_on_guard_witness :
    triggerShapeDetection (initState Tool.pen) = initState Tool.pen :=
  trigger_noop_on_guard (initState Tool.pen) (Or.inl rfl)


/-- Counterexample to C4: resizing a detected rectangle with the pointer at
the anchor yields width and height 0 — the resizer floors only the circle
radius and the oval radii at 5, not the rectangle, triangle or line. -/
theorem resize_rect_zero_dimensions :
    resizeShapeGeom ShapeType.rectangle ⟨10, 10⟩ ⟨10, 10⟩ (ShapeGeom.rectG 0 0 50 50) =
      ShapeGeom.rectG 10 10 0 0 ∧ ¬ (5 : ℝ) ≤ rectWidth (ShapeGeom.rectG 10 10 0 0) := by
  constructor
  · rw [resizeShapeGeom]
    norm_num
  · rw [rectWidth]
    norm_num

/-- Claim C4 as amended: after a live resize the circle radius and both oval
radii are at least 5; the rectangle, triangle and line dimensions have no
such floor. -/
theorem resize_circle_oval_min_five (anchor pos : Pt) (x y r rx ry : ℝ) :
    5 ≤ circleRadius (resizeShapeGeom ShapeType.circle anchor pos (ShapeGeom.circleG x y r)) ∧
    5 ≤ ovalRadiusX (resizeShapeGeom ShapeType.oval anchor pos (ShapeGeom.ovalG x y rx ry)) ∧
    5 ≤ ovalRadiusY (resizeShapeGeom ShapeType.oval anchor pos (ShapeGeom.ovalG x y rx ry)) := by
  refine ⟨?_, ?_, ?_⟩ <;>
    simp [resizeShapeGeom, circleRadius, ovalRadiusX, ovalRadiusY]

/-- Counterexample to C5: `getAngle` can return 270 degrees — the absolute
bearing difference is not folded into `[0, 180]` when the two bearings
straddle the `±π` cut of `atan2`. -/
theorem getAngle_returns_270 :
    getAngle ⟨-1, 0⟩ ⟨0, 0⟩ ⟨0, -1⟩ = 270 ∧
      ¬ getAngle ⟨-1, 0⟩ ⟨0, 0⟩ ⟨0, -1⟩ ≤ 180 := by
  have ha : atan2 ((0 : ℝ) - 0) ((-1 : ℝ) - 0) = Real.pi := by
    have h : (((-1 : ℝ) - 0 : ℝ) : ℂ) + (((0 : ℝ) - 0 : ℝ) : ℂ) * Complex.I = -1 := by
      push_cast
      ring
    rw [atan2, h, Complex.arg_neg_one]
  have hb : atan2 ((-1 : ℝ) - 0) ((0 : ℝ) - 0) = -(Real.pi / 2) := by
    have h : (((0 : ℝ) - 0 : ℝ) : ℂ) + (((-1 : ℝ) - 0 : ℝ) : ℂ) * Complex.I = -Complex.I := by
      push_cast
      ring
    rw [atan2, h, Complex.arg_neg_I]
  have hval : getAngle ⟨-1, 0⟩ ⟨0, 0⟩ ⟨0, -1⟩ = 270 := by
    simp only [getAngle, ha, hb, sub_neg_eq_add]
    rw [abs_of_pos (by positivity)]
    field_simp
    ring
  refine ⟨hval, ?_⟩
  rw [hval]
  norm_num

/-- Claim C5 as amended: `getAngle` always returns a value in `[0, 360)` —
the absolute difference of two `atan2` bearings, each in `(-π, π]`, scaled to
degrees; it can exceed 180. -/
theorem getAngle_range (p1 p2 p3 : Pt) :
    0 ≤ getAngle p1 p2 p3 ∧ getAngle p1 p2 p3 < 360 := by
  have h1a : atan2 (p1.y - p2.y) (p1.x - p2.x) ≤ Real.pi := Complex.arg_le_pi _
  have h1b : -Real.pi < atan2 (p1.y - p2.y) (p1.x - p2.x) := Complex.neg_pi_lt_arg _
  have h2a : atan2 (p3.y - p2.y) (p3.x - p2.x) ≤ Real.pi := Complex.arg_le_pi _
  have h2b : -Real.pi < atan2 (p3.y - p2.y) (p3.x - p2.x) := Complex.neg_pi_lt_arg _
  have hpi : (0 : ℝ) < 180 / Real.pi := by positivity
  constructor
  · simp only [getAngle]
    positivity
  · simp only [getAngle]
    have habs : |atan2 (p1.y - p2.y) (p1.x - p2.x) - atan2 (p3.y - p2.y) (p3.x - p2.x)|
        < 2 * Real.pi := abs_sub_lt_iff.mpr ⟨by linarith, by linarith⟩
    calc |atan2 (p1.y - p2.y) (p1.x - p2.x) - atan2 (p3.y - p2.y) (p3.x - p2.x)|
          * (180 / Real.pi)
        < (2 * Real.pi) * (180 / Real.pi) := mul_lt_mul_of_pos_right habs hpi
      _ = 360 := by
          field_simp
          ring

/-- Claim C1 as amended: a bounding-box aspect ratio STRICTLY greater than
3.5:1 in either axis makes the classifier return `line` regardless of
corners (the source compares with `>`, so a ratio of exactly 3.5 falls
through to corner analysis). -/
theorem classifier_line_strict_ratio (points : List ℝ) (hlen : 4 ≤ points.length)
    (h : maxL (evens points) - minL (evens points) >
          (maxL (odds points) - minL (odds points)) * 3.5 ∨
         maxL (odds points) - minL (odds points) >
          (maxL (evens points) - minL (evens points)) * 3.5) :
    analyzeStrokeForShape points = some ShapeType.line :=
  analyze_line_aux points hlen h

/-- Witness for C1 (amended): the spec's own near-straight scenario, width
300 and height 10. -/
theorem classifier_line_strict_ratio_witness :
    analyzeStrokeForShape [0, 0, 300, 10] = some ShapeType.line :=
  classifier_line_strict_ratio [0, 0, 300, 10] (by norm_num)
    (Or.inl (by norm_num [evens, odds, minL, maxL, min_def, max_def]))

/-- Claim C6 as amended: strokes whose FLATTENED point list is shorter than
12 entries — i.e. fewer than 6 points — yield zero corners.  (The claim's
"fewer than 12 points" is refuted by the 9-point counterexample below.) -/
theorem corner_detector_short_guard (points : List ℝ) (width height : ℝ)
    (h : points.length < 12) :
    findSignificantCorners points width height = [] :=
  fsc_empty_of_short points width height h

/-- Witness for C6 (amended) at a concrete 2-point stroke. -/
theorem corner_detector_short_guard_witness :
    findSignificantCorners [0, 0, 1, 1] 1 1 = [] :=
  corner_detector_short_guard [0, 0, 1, 1] 1 1 (by norm_num)

/-- Claim C8: the polyline erase hit test is boundary-inclusive — any segment
whose point-to-segment distance from the eraser center is at most (in
particular, exactly) `radius + strokeWidth/2` makes `lineIntersectsEraser`
report an intersection; and the spec's scenario (eraser center (50,50),
radius 10, segment (0,50)–(100,50), strokeWidth 2) intersects. -/
theorem erase_hit_test_boundary_inclusive :
    (∀ (points : List ℝ) (ex ey radius sw : ℝ) (i : ℕ),
        i ∈ segStarts points.length →
        pointToSegmentDistance ex ey (points.getD i 0) (points.getD (i + 1) 0)
            (points.getD (i + 2) 0) (points.getD (i + 3) 0) ≤ radius + sw / 2 →
        lineIntersectsEraser points ex ey radius sw = true) ∧
    lineIntersectsEraser [0, 50, 100, 50] 50 50 10 2 = true := by
  have hmain : ∀ (points : List ℝ) (ex ey radius sw : ℝ) (i : ℕ),
      i ∈ segStarts points.length →
      pointToSegmentDistance ex ey (points.getD i 0) (points.getD (i + 1) 0)
          (points.getD (i + 2) 0) (points.getD (i + 3) 0) ≤ radius + sw / 2 →
      lineIntersectsEraser points ex ey radius sw = true := by
    intro points ex ey radius sw i hi hd
    rw [lineIntersectsEraser, List.any_eq_true]
    exact ⟨i, hi, decide_eq_true hd⟩
  refine ⟨hmain, ?_⟩
  have hdist : pointToSegmentDistance 50 50 (([0, 50, 100, 50] : List ℝ).getD 0 0)
      (([0, 50, 100, 50] : List ℝ).getD 1 0) (([0, 50, 100, 50] : List ℝ).getD 2 0)
      (([0, 50, 100, 50] : List ℝ).getD 3 0) ≤ 10 + 2 / 2 := by
    rw [pointToSegmentDistance]
    norm_num [List.getD, min_def, max_def, Real.sqrt_zero]
  exact hmain [0, 50, 100, 50] 50 50 10 2 0 (by decide) hdist

/-- Witness for C8 at the exact boundary: eraser center (50,61) is at
distance exactly 11 = 10 + 2/2 from the segment, and still intersects. -/
theorem erase_hit_test_boundary_inclusive_witness :
    lineIntersectsEraser [0, 50, 100, 50] 50 61 10 2 = true := by
  have hdist : pointToSegmentDistance 50 61 (([0, 50, 100, 50] : List ℝ).getD 0 0)
      (([0, 50, 100, 50] : List ℝ).getD 1 0) (([0, 50, 100, 50] : List ℝ).getD 2 0)
      (([0, 50, 100, 50] : List ℝ).getD 3 0) ≤ 10 + 2 / 2 := by
    rw [pointToSegmentDistance]
    have h121 : Real.sqrt 121 = 11 := by
      rw [show (121 : ℝ) = 11 ^ 2 by norm_num, Real.sqrt_sq (by norm_num : (0 : ℝ) ≤ 11)]
    norm_num [List.getD, min_def, max_def, h121]
  exact erase_hit_test_boundary_inclusive.1 [0, 50, 100, 50] 50 61 10 2 0 (by decide) hdist

/-- Counterexample to C1 as stated: the stroke `[0,0, 7,0, 0,2]` has bounding
box width 7 = 3.5 * height 2 (aspect ratio exactly 3.5:1), yet the classifier
returns `oval`, not `line` — the source compares with strict `>`. -/
theorem classifier_ratio_boundary_not_line :
    maxL (evens ([0, 0, 7, 0, 0, 2] : List ℝ)) - minL (evens ([0, 0, 7, 0, 0, 2] : List ℝ)) =
      3.5 * (maxL (odds ([0, 0, 7, 0, 0, 2] : List ℝ)) -
        minL (odds ([0, 0, 7, 0, 0, 2] : List ℝ))) ∧
    analyzeStrokeForShape [0, 0, 7, 0, 0, 2] = some ShapeType.oval := by
  have hfsc : ∀ w h : ℝ, findSignificantCorners [0, 0, 7, 0, 0, 2] w h = [] :=
    fun w h => fsc_empty_of_short _ w h (by norm_num)
  constructor
  · norm_num [evens, odds, minL, maxL, min_def, max_def]
  · rw [analyzeStrokeForShape]
    norm_num [evens, odds, minL, maxL, min_def, max_def, hfsc]

/-- Counterexample to C6 as stated: this L-shaped stroke has 9 points (18
flattened entries, fewer than 12 points), yet the corner detector finds the
corner at (1,0) — the source guard is on the flattened length, not the point
count. -/
theorem corner_detector_finds_corner_in_nine_points :
    ([0, 0, 1/4, 0, 1/2, 0, 3/4, 0, 1, 0, 1, 1/4, 1, 1/2, 1, 3/4, 1, 1] : List ℝ).length = 18 ∧
    findSignificantCorners
      ([0, 0, 1/4, 0, 1/2, 0, 3/4, 0, 1, 0, 1, 1/4, 1, 1/2, 1, 3/4, 1, 1] : List ℝ) 1 1 =
      [⟨1, 0⟩] := by
  have ha : atan2 0 (-1) = Real.pi := by
    have h : ((-1 : ℝ) : ℂ) + ((0 : ℝ) : ℂ) * Complex.I = -1 := by
      push_cast
      ring
    rw [atan2, h, Complex.arg_neg_one]
  have hb : atan2 1 0 = Real.pi / 2 := by
    have h : ((0 : ℝ) : ℂ) + ((1 : ℝ) : ℂ) * Complex.I = Complex.I := by
      push_cast
      ring
    rw [atan2, h, Complex.arg_I]
  have hang : getAngle ⟨0, 0⟩ ⟨1, 0⟩ ⟨1, 1⟩ = 90 := by
    simp only [getAngle]
    norm_num
    rw [ha, hb]
    rw [show Real.pi - Real.pi / 2 = Real.pi / 2 by ring]
    rw [abs_of_pos (by positivity : (0 : ℝ) < Real.pi / 2)]
    field_simp
    ring
  refine ⟨by norm_num, ?_⟩
  rw [findSignificantCorners]
  norm_num [List.range_succ, List.filter_append, List.filterMap_append, List.getD,
    List.filterMap_cons, List.filterMap_nil, List.getElem?_cons_zero,
    List.getElem?_cons_succ, Option.getD_some, List.foldr_cons, List.foldr_nil,
    List.foldl_cons, List.foldl_nil, List.any_nil,
    sortByAngle, insertCand, hang, min_def, max_def]

/-- Helper: pointer-down at (0,0) followed by moves to (1,0) and (2,0) with a
pen or highlighter tool leaves the machine in `Drawing` with the three-point
live stroke and an armed hold timer. -/
theorem trace_three_samples (t : Tool) (ht : ¬ t = Tool.hand) :
    handlePointerMove (some ⟨2, 0⟩) (handlePointerMove (some ⟨1, 0⟩)
      (handlePointerDown (some ⟨0, 0⟩) (initState t))) =
    { tool := t, isDrawing := true, currentLine := some [0, 0, 1, 0, 2, 0],
      currentShape := none, isInShapeMode := false, detectedShapeType := none,
      shapeAnchor := none, shapeBounds := none, lastMovePos := some ⟨2, 0⟩,
      shapeHoldTimer := true, layer := [] } := by
  cases t with
  | pen =>
      simp [handlePointerDown, handlePointerMove, startDrawing, continueDrawing,
        checkForShapeHold, initState, Real.sqrt_one,
        show (2 : ℝ) - 1 = 1 by norm_num, show ¬ ((1 : ℝ) > 5) by norm_num]
  | highlighter =>
      simp [handlePointerDown, handlePointerMove, startDrawing, continueDrawing,
        checkForShapeHold, initState, Real.sqrt_one,
        show (2 : ℝ) - 1 = 1 by norm_num, show ¬ ((1 : ℝ) > 5) by norm_num]
  | hand => exact absurd rfl ht

/-- Helper: firing shape detection on the three-point stroke `[0,0,1,0,2,0]`
classifies it as a line (width 2, height 0), destroys the stroke, and — the
`currentLine` reference having been nulled first — anchors the line at the
bounds corner (0,0). -/
theorem snap_three_sample_line (t : Tool) (b : Bool) :
    triggerShapeDetection
      { tool := t, isDrawing := b, currentLine := some [0, 0, 1, 0, 2, 0],
        currentShape := none, isInShapeMode := false, detectedShapeType := none,
        shapeAnchor := none, shapeBounds := none, lastMovePos := some ⟨2, 0⟩,
        shapeHoldTimer := true, layer := [] } =
      { tool := t, isDrawing := b, currentLine := none,
        currentShape := some (ShapeGeom.polyG [0, 0, 2, 0] false),
        isInShapeMode := true, detectedShapeType := some ShapeType.line,
        shapeAnchor := some ⟨0, 0⟩, shapeBounds := some (0, 0, 2, 0),
        lastMovePos := some ⟨2, 0⟩, shapeHoldTimer := true, layer := [] } := by
  have hcls : analyzeStrokeForShape [0, 0, 1, 0, 2, 0] = some ShapeType.line :=
    analyze_line_aux _ (by norm_num)
      (Or.inl (by norm_num [evens, odds, minL, maxL, min_def, max_def]))
  rw [triggerShapeDetection]
  norm_num [hcls, createDetectedShape, jsOr, evens, odds, minL, maxL, min_def, max_def]

/-- Claim C2 refutation: with the highlighter tool, drawing three samples and
holding triggers shape detection exactly as with the pen — the highlighter
stroke is destroyed and replaced by a recognized shape, and the machine
enters shape mode (the hold-timer callback never checks the tool). -/
theorem highlighter_gesture_snaps_to_shape :
    (timerFire (handlePointerMove (some ⟨2, 0⟩) (handlePointerMove (some ⟨1, 0⟩)
      (handlePointerDown (some ⟨0, 0⟩) (initState Tool.highlighter))))).isInShapeMode = true ∧
    (timerFire (handlePointerMove (some ⟨2, 0⟩) (handlePointerMove (some ⟨1, 0⟩)
      (handlePointerDown (some ⟨0, 0⟩) (initState Tool.highlighter))))).currentLine = none ∧
    (timerFire (handlePointerMove (some ⟨2, 0⟩) (handlePointerMove (some ⟨1, 0⟩)
      (handlePointerDown (some ⟨0, 0⟩) (initState Tool.highlighter))))).currentShape =
      some (ShapeGeom.polyG [0, 0, 2, 0] false) := by
  rw [trace_three_samples Tool.highlighter (fun h => Tool.noConfusion h)]
  rw [timerFire]
  norm_num [snap_three_sample_line Tool.highlighter true]

/-- Claim C7 refutation: a pointer-up whose position is unavailable returns
before the timer-clearing code, so the hold timer stays armed and the whole
transient hold state (live stroke, last move position) survives; a later
stale timer firing then converts the already-finished stroke into a shape. -/
theorem pointer_up_unavailable_leaves_hold_state :
    (handlePointerUp none (handlePointerMove (some ⟨2, 0⟩) (handlePointerMove (some ⟨1, 0⟩)
      (handlePointerDown (some ⟨0, 0⟩) (initState Tool.pen))))).shapeHoldTimer = true ∧
    (handlePointerUp none (handlePointerMove (some ⟨2, 0⟩) (handlePointerMove (some ⟨1, 0⟩)
      (handlePointerDown (some ⟨0, 0⟩) (initState Tool.pen))))).currentLine =
      some [0, 0, 1, 0, 2, 0] ∧
    (handlePointerUp none (handlePointerMove (some ⟨2, 0⟩) (handlePointerMove (some ⟨1, 0⟩)
      (handlePointerDown (some ⟨0, 0⟩) (initState Tool.pen))))).lastMovePos = some ⟨2, 0⟩ ∧
    (handlePointerUp none (handlePointerMove (some ⟨2, 0⟩) (handlePointerMove (some ⟨1, 0⟩)
      (handlePointerDown (some ⟨0, 0⟩) (initState Tool.pen))))).isDrawing = false ∧
    (timerFire (handlePointerUp none (handlePointerMove (some ⟨2, 0⟩)
      (handlePointerMove (some ⟨1, 0⟩) (handlePointerDown (some ⟨0, 0⟩)
      (initState Tool.pen)))))).isInShapeMode = true ∧
    (timerFire (handlePointerUp none (handlePointerMove (some ⟨2, 0⟩)
      (handlePointerMove (some ⟨1, 0⟩) (handlePointerDown (some ⟨0, 0⟩)
      (initState Tool.pen)))))).currentShape = some (ShapeGeom.polyG [0, 0, 2, 0] false) := by
  rw [trace_three_samples Tool.pen (fun h => Tool.noConfusion h)]
  rw [show handlePointerUp none
      { tool := Tool.pen, isDrawing := true, currentLine := some [0, 0, 1, 0, 2, 0],
        currentShape := none, isInShapeMode := false, detectedShapeType := none,
        shapeAnchor := none, shapeBounds := none, lastMovePos := some ⟨2, 0⟩,
        shapeHoldTimer := true, layer := [] } =
      { tool := Tool.pen, isDrawing := false, currentLine := some [0, 0, 1, 0, 2, 0],
        currentShape := none, isInShapeMode := false, detectedShapeType := none,
        shapeAnchor := none, shapeBounds := none, lastMovePos := some ⟨2, 0⟩,
        shapeHoldTimer := true, layer := [] } from rfl]
  rw [timerFire]
  norm_num [snap_three_sample_line Tool.pen false]

/-- Claim C3 refutation: a right-to-left pen stroke (10,2) → (6,2) → (2,2) is
classified as a line on hold, but the committed anchor is the bounds corner
(minX, minY) = (2,2), NOT the stroke's first captured point (10,2): the
source nulls `currentLine` before `createDetectedShape` reads it, so
`points[0] || minX` falls back to the bounds.  (For every non-line kind the
anchor is indeed the bounds center, as set in `triggerShapeDetection`.) -/
theorem detected_line_anchor_is_bounds_corner :
    (timerFire (handlePointerMove (some ⟨2, 2⟩) (handlePointerMove (some ⟨6, 2⟩)
      (handlePointerDown (some ⟨10, 2⟩) (initState Tool.pen))))).detectedShapeType =
      some ShapeType.line ∧
    (timerFire (handlePointerMove (some ⟨2, 2⟩) (handlePointerMove (some ⟨6, 2⟩)
      (handlePointerDown (some ⟨10, 2⟩) (initState Tool.pen))))).shapeAnchor =
      some (⟨2, 2⟩ : Pt) ∧
    (timerFire (handlePointerMove (some ⟨2, 2⟩) (handlePointerMove (some ⟨6, 2⟩)
      (handlePointerDown (some ⟨10, 2⟩) (initState Tool.pen))))).currentShape =
      some (ShapeGeom.polyG [2, 2, 10, 2] false) ∧
    (⟨2, 2⟩ : Pt) ≠ ⟨10, 2⟩ := by
  have hsqrt16 : Real.sqrt 16 = 4 := by
    rw [show (16 : ℝ) = 4 ^ 2 by norm_num]
    exact Real.sqrt_sq (by norm_num)
  have htr : handlePointerMove (some ⟨2, 2⟩) (handlePointerMove (some ⟨6, 2⟩)
      (handlePointerDown (some ⟨10, 2⟩) (initState Tool.pen))) =
    { tool := Tool.pen, isDrawing := true, currentLine := some [10, 2, 6, 2, 2, 2],
      currentShape := none, isInShapeMode := false, detectedShapeType := none,
      shapeAnchor := none, shapeBounds := none, lastMovePos := some ⟨2, 2⟩,
      shapeHoldTimer := true, layer := [] } := by
    simp [handlePointerDown, handlePointerMove, startDrawing, continueDrawing,
      checkForShapeHold, initState, hsqrt16,
      show (2 : ℝ) - 6 = -4 by norm_num, show (4 : ℝ) * 4 = 16 by norm_num,
      show ¬ ((4 : ℝ) > 5) by norm_num]
  have hcls : analyzeStrokeForShape [10, 2, 6, 2, 2, 2] = some ShapeType.line :=
    analyze_line_aux _ (by norm_num)
      (Or.inl (by norm_num [evens, odds, minL, maxL, min_def, max_def]))
  have htrig : triggerShapeDetection
      { tool := Tool.pen, isDrawing := true, currentLine := some [10, 2, 6, 2, 2, 2],
        currentShape := none, isInShapeMode := false, detectedShapeType := none,
        shapeAnchor := none, shapeBounds := none, lastMovePos := some ⟨2, 2⟩,
        shapeHoldTimer := true, layer := [] } =
      { tool := Tool.pen, isDrawing := true, currentLine := none,
        currentShape := some (ShapeGeom.polyG [2, 2, 10, 2] false),
        isInShapeMode := true, detectedShapeType := some ShapeType.line,
        shapeAnchor := some ⟨2, 2⟩, shapeBounds := some (2, 2, 10, 2),
        lastMovePos := some ⟨2, 2⟩, shapeHoldTimer := true, layer := [] } := by
    rw [triggerShapeDetection]
    norm_num [hcls, createDetectedShape, jsOr, evens, odds, minL, maxL, min_def, max_def]
  rw [htr, timerFire]
  norm_num [htrig, Pt.mk.injEq]

/-- Helper: characterize `Int.log 2` by bracketing powers of two. -/
theorem int_log_eq_of {q : ℚ} {e : ℤ} (h1 : (2 : ℚ) ^ e ≤ q) (h2 : q < 2 ^ (e + 1)) :
    Int.log 2 q = e := by
  have hq : 0 < q := lt_of_lt_of_le (zpow_pos (by norm_num) e) h1
  have hle : e ≤ Int.log 2 q := by
    refine (Int.zpow_le_iff_le_log (by norm_num) hq).mp ?_
    exact_mod_cast h1
  have hlt : Int.log 2 q < e + 1 := by
    refine (Int.lt_zpow_iff_log_lt (by norm_num) hq).mp ?_
    exact_mod_cast h2
  omega

/-- Helper: `rne` rounds down when the fractional part is below one half. -/
theorem rne_floor {m : ℚ} {f : ℤ} (hf : ⌊m⌋ = f) (h : m - (f : ℚ) < 1 / 2) : rne m = f := by
  rw [rne, hf, if_pos h]

/-- Helper: `rne` rounds up when the fractional part is above one half. -/
theorem rne_ceil {m : ℚ} {f : ℤ} (hf : ⌊m⌋ = f) (h : m - (f : ℚ) > 1 / 2) : rne m = f + 1 := by
  rw [rne, hf, if_neg (by linarith), if_pos h]

/-- Helper: evaluate the binary64 rounding of a positive rational from its
binade exponent and rounded significand. -/
theorem fl53_eval {q : ℚ} {e n : ℤ} (h1 : (2 : ℚ) ^ e ≤ q) (h2 : q < 2 ^ (e + 1))
    (hn : rne (q * 2 ^ ((52 : ℤ) - e)) = n) : fl53 q = (n : ℚ) * 2 ^ (e - 52) := by
  have hq : 0 < q := lt_of_lt_of_le (zpow_pos (by norm_num) e) h1
  rw [fl53, if_neg (ne_of_gt hq), if_pos hq, int_log_eq_of h1 h2, hn]

/-- Helper: the double nearest 0.8 (the source literal) is
3602879701896397 / 2^52. -/
theorem lit08_val : lit08 = 3602879701896397 / 4503599627370496 := by
  have hm : (4 / 5 : ℚ) * 2 ^ ((52 : ℤ) - (-1)) = 36028797018963968 / 5 := by norm_num
  have hf : ⌊(36028797018963968 / 5 : ℚ)⌋ = 7205759403792793 := by
    rw [Int.floor_eq_iff]
    norm_num
  have hr : rne ((4 / 5 : ℚ) * 2 ^ ((52 : ℤ) - (-1))) = 7205759403792794 := by
    rw [hm, rne_ceil hf (by norm_num)]
    norm_num
  rw [lit08, fl53_eval (by norm_num) (by norm_num) hr]
  norm_num

/-- Helper: the double nearest 0.4 is 3602879701896397 / 2^53. -/
theorem double04_val : fl53 (2 / 5) = 3602879701896397 / 9007199254740992 := by
  have hm : (2 / 5 : ℚ) * 2 ^ ((52 : ℤ) - (-2)) = 36028797018963968 / 5 := by norm_num
  have hf : ⌊(36028797018963968 / 5 : ℚ)⌋ = 7205759403792793 := by
    rw [Int.floor_eq_iff]
    norm_num
  have hr : rne ((2 / 5 : ℚ) * 2 ^ ((52 : ℤ) - (-2))) = 7205759403792794 := by
    rw [hm, rne_ceil hf (by norm_num)]
    norm_num
  rw [fl53_eval (by norm_num) (by norm_num) hr]
  norm_num

/-- Helper: the double product 0.4 * 0.8 rounds UP to
1441151880758559 / 2^52 (displayed 0.32000000000000006). -/
theorem jsMul_04_08 : jsMul (fl53 (2 / 5)) lit08 = 1441151880758559 / 4503599627370496 := by
  rw [jsMul, double04_val, lit08_val,
    show (3602879701896397 / 9007199254740992 : ℚ) * (3602879701896397 / 4503599627370496) =
      12980742146337070512478121581609 / 40564819207303340847894502572032 by norm_num]
  have hm : (12980742146337070512478121581609 / 40564819207303340847894502572032 : ℚ) *
      2 ^ ((52 : ℤ) - (-2)) = 12980742146337070512478121581609 / 2251799813685248 := by
    norm_num
  have hf : ⌊(12980742146337070512478121581609 / 2251799813685248 : ℚ)⌋ = 5764607523034235 := by
    rw [Int.floor_eq_iff]
    norm_num
  have hr : rne ((12980742146337070512478121581609 / 40564819207303340847894502572032 : ℚ) *
      2 ^ ((52 : ℤ) - (-2))) = 5764607523034236 := by
    rw [hm, rne_ceil hf (by norm_num)]
    norm_num
  rw [fl53_eval (by norm_num) (by norm_num) hr]
  norm_num

/-- Helper: dividing that product back by the double 0.8 rounds UP again, to
7205759403792795 / 2^54 — one unit in the last place ABOVE the double 0.4. -/
theorem jsDiv_restore_04 :
    jsDiv (1441151880758559 / 4503599627370496) lit08 = 7205759403792795 / 18014398509481984 := by
  rw [jsDiv, lit08_val,
    show (1441151880758559 / 4503599627370496 : ℚ) / (3602879701896397 / 4503599627370496) =
      1441151880758559 / 3602879701896397 by norm_num]
  have hm : (1441151880758559 / 3602879701896397 : ℚ) * 2 ^ ((52 : ℤ) - (-2)) =
      25961484292674143186684064301056 / 3602879701896397 := by norm_num
  have hf : ⌊(25961484292674143186684064301056 / 3602879701896397 : ℚ)⌋ = 7205759403792794 := by
    rw [Int.floor_eq_iff]
    norm_num
  have hr : rne ((1441151880758559 / 3602879701896397 : ℚ) * 2 ^ ((52 : ℤ) - (-2))) =
      7205759403792795 := by
    rw [hm, rne_ceil hf (by norm_num)]
    norm_num
  rw [fl53_eval (by norm_num) (by norm_num) hr]
  norm_num

/-- Helper: multiplying opacity 1 by the double 0.8 is exact. -/
theorem jsMul_one_08 : jsMul 1 lit08 = 3602879701896397 / 4503599627370496 := by
  rw [jsMul, lit08_val, one_mul]
  have hm : (3602879701896397 / 4503599627370496 : ℚ) * 2 ^ ((52 : ℤ) - (-1)) =
      7205759403792794 := by norm_num
  have hf : ⌊(7205759403792794 : ℚ)⌋ = 7205759403792794 := by
    rw [Int.floor_eq_iff]
    norm_num
  have hr : rne ((3602879701896397 / 4503599627370496 : ℚ) * 2 ^ ((52 : ℤ) - (-1))) =
      7205759403792794 := by
    rw [hm, rne_floor hf (by norm_num)]
  rw [fl53_eval (by norm_num) (by norm_num) hr]
  norm_num

/-- Helper: dividing the double 0.8 by itself is exactly 1. -/
theorem jsDiv_08_08 : jsDiv (3602879701896397 / 4503599627370496) lit08 = 1 := by
  rw [jsDiv, lit08_val,
    show (3602879701896397 / 4503599627370496 : ℚ) / (3602879701896397 / 4503599627370496) =
      1 by norm_num]
  have hf : ⌊(4503599627370496 : ℚ)⌋ = 4503599627370496 := by
    rw [Int.floor_eq_iff]
    norm_num
  have hm : (1 : ℚ) * 2 ^ ((52 : ℤ) - 0) = 4503599627370496 := by norm_num
  have hr : rne ((1 : ℚ) * 2 ^ ((52 : ℤ) - 0)) = 4503599627370496 := by
    rw [hm, rne_floor hf (by norm_num)]
  rw [fl53_eval (by norm_num) (by norm_num) hr]
  norm_num

/-- Helper: multiplying opacity 1/2 by the double 0.8 is exact (a pure
exponent shift of the 0.8 significand). -/
theorem jsMul_half_08 : jsMul (1 / 2) lit08 = 3602879701896397 / 9007199254740992 := by
  rw [jsMul, lit08_val,
    show (1 / 2 : ℚ) * (3602879701896397 / 4503599627370496) =
      3602879701896397 / 9007199254740992 by norm_num]
  have hm : (3602879701896397 / 9007199254740992 : ℚ) * 2 ^ ((52 : ℤ) - (-2)) =
      7205759403792794 := by norm_num
  have hf : ⌊(7205759403792794 : ℚ)⌋ = 7205759403792794 := by
    rw [Int.floor_eq_iff]
    norm_num
  have hr : rne ((3602879701896397 / 9007199254740992 : ℚ) * 2 ^ ((52 : ℤ) - (-2))) =
      7205759403792794 := by
    rw [hm, rne_floor hf (by norm_num)]
  rw [fl53_eval (by norm_num) (by norm_num) hr]
  norm_num

/-- Helper: dividing that exact product back by the double 0.8 returns
exactly 1/2. -/
theorem jsDiv_half_08 : jsDiv (3602879701896397 / 9007199254740992) lit08 = 1 / 2 := by
  rw [jsDiv, lit08_val,
    show (3602879701896397 / 9007199254740992 : ℚ) / (3602879701896397 / 4503599627370496) =
      1 / 2 by norm_num]
  have hf : ⌊(4503599627370496 : ℚ)⌋ = 4503599627370496 := by
    rw [Int.floor_eq_iff]
    norm_num
  have hm : (1 / 2 : ℚ) * 2 ^ ((52 : ℤ) - (-1)) = 4503599627370496 := by norm_num
  have hr : rne ((1 / 2 : ℚ) * 2 ^ ((52 : ℤ) - (-1))) = 4503599627370496 := by
    rw [hm, rne_floor hf (by norm_num)]
  rw [fl53_eval (by norm_num) (by norm_num) hr]
  norm_num

/-- Counterexample to C9: in the program's binary64 arithmetic the lasso
select-then-clear round trip is NOT exact.  A shape whose original opacity
is the double 0.4 (= 3602879701896397 / 2^53) is dimmed to 0.32000000000000006
and restored to 7205759403792795 / 2^54 = 0.4000000000000001 — one unit in
the last place above the original — because `clearSelection` recomputes
`opacity / 0.8` instead of restoring a stored value. -/
theorem selection_opacity_not_restored :
    restoreSelected (highlightSelected ⟨0, 0, fl53 (2 / 5)⟩) =
      (⟨0, 0, 7205759403792795 / 18014398509481984⟩ : KShape) ∧
    (7205759403792795 / 18014398509481984 : ℚ) ≠ fl53 (2 / 5) := by
  constructor
  · simp only [highlightSelected, restoreSelected]
    rw [jsMul_04_08, jsDiv_restore_04]
  · rw [double04_val]
    norm_num

/-- Claim C9 as amended: the lasso dim/restore recomputes opacity as
`(opacity * 0.8) / 0.8` in double arithmetic with no stored original, so the
round trip is exact only when both roundings are exact — in particular for
the default opacity 1 and for 1/2 — and in general the restored opacity can
differ from the original by one unit in the last place (see the 0.4
counterexample). -/
theorem selection_opacity_round_trip_default (x y : ℚ) :
    restoreSelected (highlightSelected ⟨x, y, 1⟩) = (⟨x, y, 1⟩ : KShape) ∧
    restoreSelected (highlightSelected ⟨x, y, 1 / 2⟩) = (⟨x, y, 1 / 2⟩ : KShape) := by
  constructor
  · simp only [highlightSelected, restoreSelected]
    rw [jsMul_one_08, jsDiv_08_08]
  · simp only [highlightSelected, restoreSelected]
    rw [jsMul_half_08, jsDiv_half_08]
